import Mathlib

/-!
Verification development for the `fin_buddy` repository.

The development shallowly embeds the two stateful core components
(`app/core/rate_limiter.py` and `app/core/session_manager.py`) and the
webhook-facing glue of `app/main.py` that the specification talks about.
Machine state (the Redis-backed sorted set respectively the session store)
is made explicit and every Python function becomes a pure Lean function on
that state.  Time is an explicit `Int` parameter (`int(time.time())`
respectively the `datetime` clock), fallible Python code returns values in
`Except PyErr`.
-/

/-- Python exception values that the embedded code can raise.
`attributeError` models `AttributeError` (in particular the one raised by
`datetime.utcnow()` under `import datetime`), `jsonDecodeError` models
`json.JSONDecodeError` from `json.loads`, `storeError` models a Redis
connection/command failure, and `requestException` models a failure of an
outbound `requests.post` call. -/
inductive PyErr where
  | attributeError
  | jsonDecodeError
  | storeError
  | requestException
  deriving DecidableEq, Repr

/-! Rate limiter (`app/core/rate_limiter.py`).

`RateLimiter.is_allowed(user_id, rate_limit_counter, limit, window)` touches
only the key `rate_limit:<user_id>`, and the Prometheus counter label for
that same `user_id`.  The embedding therefore carries the per-user slice of
the store: the sorted set stored at `rate_limit:<user_id>` (a list of
member/score pairs; Redis keeps members unique), the key's remaining TTL,
and the per-user denial counter. -/

/-- Default `RATE_LIMIT_REQUESTS` (env default `"10"`). -/
def RATE_LIMIT_REQUESTS : Int := 10

/-- Default `RATE_LIMIT_WINDOW` (env default `"60"`). -/
def RATE_LIMIT_WINDOW : Int := 60

/-- The per-user slice of rate-limiter state: the sorted set at
`rate_limit:<user_id>` as member/score pairs, the key's TTL (`none` when no
expiry is set or the key is absent), and the value of the denial counter
labelled with this user. -/
structure RLState where
  entries : List (String × Int)
  ttl : Option Int
  denials : Nat
  deriving DecidableEq, Repr

/-- The state of the key before any request: no entries, no TTL, counter 0. -/
def emptyRL : RLState := ⟨[], none, 0⟩

/-- Embeds `pipeline.zremrangebyscore(key, 0, current_time - window)`: Redis removes
every member whose score lies in the closed interval
`[0, current_time - window]`. -/
def pruneEntries (entries : List (String × Int)) (now window : Int) :
    List (String × Int) :=
  entries.filter (fun e => decide (¬ (0 ≤ e.2 ∧ e.2 ≤ now - window)))

/-- Embeds `pipeline.zadd(key, {member: score})`: when the member is already in the
sorted set its score is updated in place, otherwise a new element is added. -/
def zaddMember (entries : List (String × Int)) (member : String) (score : Int) :
    List (String × Int) :=
  if entries.any (fun e => e.1 = member) then
    entries.map (fun e => if e.1 = member then (member, score) else e)
  else
    entries ++ [(member, score)]

/-- Embeds `RateLimiter.is_allowed` (src/app/core/rate_limiter.py:15-32) for one
user, at clock value `now = int(time.time())`.  The four pipelined commands
run as one unit: `zremrangebyscore(key, 0, now - window)`, `zcard(key)`
(read before the add), `zadd(key, {str(now): now})` and
`expire(key, window)` (a nonpositive `window` makes `EXPIRE` delete the
key).  Afterwards, if `current_requests >= limit` the denial counter for the
user is incremented and the call returns `False`, else it returns `True`. -/
def is_allowed (st : RLState) (limit window now : Int) : RLState × Bool :=
  let pruned := pruneEntries st.entries now window
  let current_requests : Int := pruned.length
  let afterAdd := zaddMember pruned (toString now) now
  let afterExpire : List (String × Int) × Option Int :=
    if window ≤ 0 then ([], none) else (afterAdd, some window)
  if limit ≤ current_requests then
    (⟨afterExpire.1, afterExpire.2, st.denials + 1⟩, false)
  else
    (⟨afterExpire.1, afterExpire.2, st.denials⟩, true)

/-- A sequence of `is_allowed` calls for the same user with fixed `limit`
and `window`, one call per clock value in `times`; returns the final state
and the list of returned booleans in call order. -/
def runCalls (st : RLState) (limit window : Int) : List Int → RLState × List Bool
  | [] => (st, [])
  | t :: ts =>
    let r := is_allowed st limit window t
    let rest := runCalls r.1 limit window ts
    (rest.1, r.2 :: rest.2)

/-! Session manager (`app/core/session_manager.py`).

`SessionManager` keeps, per user, the JSON blob at `session:<user_id>` plus
its TTL, and the module-wide `active_sessions` gauge.  The embedding keys
the association list by the user identifier (the `session:` prefix is a
fixed injective decoration).  Timestamps (`datetime ... .isoformat()`
strings) are modelled as `Int` clock values; ISO strings compare like the
instants they denote.

The module does `import datetime` (line 2) and then calls
`datetime.utcnow()` (lines 29, 30, 38, 46).  The `datetime` *module* has no
attribute `utcnow` (only the `datetime.datetime` class does), so each of
those calls raises `AttributeError`.  The embedding keeps the call as a
named fallible operation so the surrounding translation stays line-for-line
faithful. -/

/-- Default `SESSION_TTL` (env default `"3600"`). -/
def SESSION_TTL : Int := 3600

/-- Embeds `datetime.utcnow().isoformat()` as written in the source: under
`import datetime` the attribute lookup `datetime.utcnow` raises
`AttributeError`, so the operation never yields a timestamp. -/
def datetimeUtcnowIso : Except PyErr Int := Except.error PyErr.attributeError

/-- One entry of `session["message_history"]`:
`{"timestamp": ..., "message": ...}` (the message payload is abstracted to a
string). -/
structure HistEntry where
  timestamp : Int
  message : String
  deriving DecidableEq, Repr

/-- A session dictionary: fields `stage`, `message_history`, `created_at`,
`last_activity`. -/
structure Session where
  stage : String
  message_history : List HistEntry
  created_at : Int
  last_activity : Int
  deriving DecidableEq, Repr

/-- A stored value at `session:<user_id>`: either a well-formed serialized
session (written by `json.dumps`) or a malformed blob on which `json.loads`
raises. -/
inductive StoredVal where
  | good (s : Session)
  | malformed
  deriving DecidableEq, Repr

/-- A stored key: its value and its remaining TTL in seconds. -/
structure SessEntry where
  val : StoredVal
  ttl : Int
  deriving DecidableEq, Repr

/-- The session side of the store plus the `active_sessions` gauge.
`storeDown` models the store being unreachable: every Redis command raises. -/
structure SessStore where
  sessions : List (String × SessEntry)
  gauge : Nat
  storeDown : Bool
  deriving DecidableEq, Repr

/-- A store with no sessions and the store reachable. -/
def emptySess : SessStore := ⟨[], 0, false⟩

/-- Look up the entry stored for a user. -/
def lookupSess (st : SessStore) (uid : String) : Option SessEntry :=
  (st.sessions.find? (fun p => p.1 == uid)).map (fun p => p.2)

/-- Embeds `self.redis.get(key)`: raises when the store is down, otherwise returns
the stored blob or `None`. -/
def redisGet (st : SessStore) (uid : String) : Except PyErr (Option StoredVal) :=
  if st.storeDown then Except.error PyErr.storeError
  else Except.ok ((lookupSess st uid).map (fun e => e.val))

/-- Embeds `json.loads(data)`: succeeds exactly on well-formed blobs. -/
def jsonLoads : StoredVal → Except PyErr Session
  | StoredVal.good s => Except.ok s
  | StoredVal.malformed => Except.error PyErr.jsonDecodeError

/-- Embeds `self.redis.setex(key, ttl, blob)`: raises when the store is down,
otherwise replaces (or creates) the user's entry with the given TTL. -/
def setex (st : SessStore) (uid : String) (ttl : Int) (v : StoredVal) :
    SessStore × Except PyErr Unit :=
  if st.storeDown then (st, Except.error PyErr.storeError)
  else
    ({ st with sessions :=
        if st.sessions.any (fun p => p.1 == uid) then
          st.sessions.map (fun p => if p.1 == uid then (uid, ⟨v, ttl⟩) else p)
        else
          st.sessions ++ [(uid, ⟨v, ttl⟩)] },
     Except.ok ())

/-- Embeds `SessionManager._update_active_sessions` (lines 72-77): scans
`session:*` and sets the gauge to the number of keys; any exception (for
example the store being down) is caught and logged, leaving the gauge
unchanged. -/
def updateActiveSessions (st : SessStore) : SessStore :=
  if st.storeDown then st
  else { st with gauge := st.sessions.length }

/-- Embeds `SessionManager.save_session` (lines 36-40): stamps
`session["last_activity"] = datetime.utcnow().isoformat()` — which raises
`AttributeError` before anything is written — then would `setex` the blob
with `SESSION_TTL` and refresh the gauge. -/
def save_session (st : SessStore) (uid : String) (session : Session) :
    SessStore × Except PyErr Unit :=
  match datetimeUtcnowIso with
  | Except.error e => (st, Except.error e)
  | Except.ok now =>
    let session := { session with last_activity := now }
    match setex st uid SESSION_TTL (StoredVal.good session) with
    | (st1, Except.error e) => (st1, Except.error e)
    | (st1, Except.ok _) => (updateActiveSessions st1, Except.ok ())

/-- Embeds `SessionManager.get_session` (lines 17-33): reads the blob; when present
it is parsed and returned after a gauge refresh; when absent a new default
session is built — the two `datetime.utcnow()` calls raise
`AttributeError` first, so the creation path never reaches
`save_session`. -/
def get_session (st : SessStore) (uid : String) :
    SessStore × Except PyErr Session :=
  match redisGet st uid with
  | Except.error e => (st, Except.error e)
  | Except.ok (some data) =>
    match jsonLoads data with
    | Except.error e => (st, Except.error e)
    | Except.ok session => (updateActiveSessions st, Except.ok session)
  | Except.ok none =>
    match datetimeUtcnowIso with
    | Except.error e => (st, Except.error e)
    | Except.ok created =>
      match datetimeUtcnowIso with
      | Except.error e => (st, Except.error e)
      | Except.ok activity =>
        let session : Session := ⟨"idle", [], created, activity⟩
        let r := save_session st uid session
        (r.1, r.2.map (fun _ => session))

/-- Embeds `SessionManager.add_message` (lines 43-54): loads the session, appends
`{"timestamp": datetime.utcnow().isoformat(), "message": message}` — the
clock call raises `AttributeError` — truncates the history to its last 5
entries when longer, and saves. -/
def add_message (st : SessStore) (uid : String) (message : String) :
    SessStore × Except PyErr Unit :=
  match get_session st uid with
  | (st1, Except.error e) => (st1, Except.error e)
  | (st1, Except.ok session) =>
    match datetimeUtcnowIso with
    | Except.error e => (st1, Except.error e)
    | Except.ok ts =>
      let hist := session.message_history ++ [⟨ts, message⟩]
      let hist := if 5 < hist.length then hist.drop (hist.length - 5) else hist
      save_session st1 uid { session with message_history := hist }

/-- Embeds `SessionManager.set_stage` (lines 57-60): loads the session, overwrites
`stage`, saves. -/
def set_stage (st : SessStore) (uid : String) (stage : String) :
    SessStore × Except PyErr Unit :=
  match get_session st uid with
  | (st1, Except.error e) => (st1, Except.error e)
  | (st1, Except.ok session) =>
    save_session st1 uid { session with stage := stage }

/-- Embeds `SessionManager.get_message_history` (lines 62-69): the whole body is
wrapped in `try/except Exception`, so the function is total: on any raise it
returns `[]`; otherwise it returns `history[-limit:]` when `limit` is
truthy and the whole history when `limit` is zero. -/
def get_message_history (st : SessStore) (uid : String) (limit : Nat) :
    SessStore × List HistEntry :=
  match get_session st uid with
  | (st1, Except.error _) => (st1, [])
  | (st1, Except.ok session) =>
    let history := session.message_history
    (st1, if limit ≠ 0 then history.drop (history.length - limit) else history)

/-! Webhook glue (`app/main.py`).

Python strings are modelled as their character lists (`List Char`), at the
granularity of ASCII whitespace and case: `str.strip()` is modelled over the
ASCII whitespace characters and `str.lower()` over the basic latin
letters (the inputs the system handles are phone-keyboard text). -/

/-- The ASCII whitespace characters stripped by Python's `str.strip()`. -/
def pyWhitespace (c : Char) : Bool :=
  c = ' ' || c = '\t' || c = '\n' || c = '\r' || c = '\x0b' || c = '\x0c'

/-- Python `str.strip()`: drop whitespace from both ends. -/
def pyStrip (s : List Char) : List Char :=
  ((s.dropWhile pyWhitespace).reverse.dropWhile pyWhitespace).reverse

/-- Python `str.lower()` (basic latin letters). -/
def pyLower (s : List Char) : List Char :=
  s.map Char.toLower

/-- Embeds `normalize` (src/app/main.py:209-210): `(text or "").strip().lower()`.
On a string argument `text or ""` is the identity (the empty string maps to
itself), so the function strips both ends and lower-cases.  (Named
`normalizeText` here because `normalize` is taken by the ambient library.) -/
def normalizeText (text : List Char) : List Char :=
  pyLower (pyStrip text)

/-- The string `handle_message` hands to its decision logic
(src/app/main.py:272): `msg = normalize(text or "")`, where `text` is the
`Optional[str]` extracted from the webhook payload (`None` becomes `""`). -/
def handleMessageMsg (text : Option (List Char)) : List Char :=
  normalizeText (text.getD [])

/-- The HTTP response produced by the webhook POST endpoint: its status code
and the value of the `"status"` field of the JSON body. -/
structure WebResponse where
  statusCode : Nat
  status : String
  deriving DecidableEq, Repr

/-- The body of `inbound` (src/app/main.py:339-374).  Everything inside the
`try` block — `await request.json()`, the `entry`/`changes`/`messages`
extraction loop and the `handle_message` calls with their outbound sends —
is abstracted as one computation `processing` that either completes or
raises some exception; the endpoint's own code only wraps that computation
in `try/except` and picks the response: `JSONResponse({"status": "ok"})`
(HTTP 200) on completion, and
`JSONResponse({"status": "error", "detail": str(e)}, status_code=500)` when
the processing raised. -/
def inbound (processing : Except PyErr Unit) : WebResponse :=
  match processing with
  | Except.ok _ => ⟨200, "ok"⟩
  | Except.error _ => ⟨500, "error"⟩

/-! Sample data used by concrete evaluations below. -/

/-- A session whose fields are pairwise distinguishable. -/
def sessIdle5 : Session := ⟨"idle", [], 0, 5⟩

/-- A store holding one well-formed session for user `u1` with TTL 100. -/
def stOneGood : SessStore := ⟨[("u1", ⟨StoredVal.good sessIdle5, 100⟩)], 0, false⟩

/-- A three-entry message history in chronological order. -/
def histThree : List HistEntry := [⟨1, "m1"⟩, ⟨2, "m2"⟩, ⟨3, "m3"⟩]

/-- A store holding a malformed blob for user `bad` and a well-formed
session for user `u`. -/
def stMixed : SessStore :=
  ⟨[("bad", ⟨StoredVal.malformed, 10⟩),
    ("u", ⟨StoredVal.good ⟨"active", histThree, 0, 1⟩, 50⟩)], 0, false⟩

/-- A 501-character text. -/
def longA : List Char := List.replicate 501 'a'

/-! Helper lemmas shared by the claim theorems. -/

/-- One `is_allowed` call, related to the prune/count/add/expire stages it
is built from: the decision and the denial-counter change are functions of
the pre-add count, and (for positive `window`) the final sorted set is the
pruned set with the member for `now` upserted and the TTL is `window`. -/
lemma is_allowed_decision (st : RLState) (limit window now : Int) :
    ((is_allowed st limit window now).2 = false ↔
      limit ≤ ((pruneEntries st.entries now window).length : Int)) ∧
    (is_allowed st limit window now).1.denials =
      st.denials +
        (if limit ≤ ((pruneEntries st.entries now window).length : Int) then 1 else 0) ∧
    (0 < window →
      (is_allowed st limit window now).1.ttl = some window ∧
      (is_allowed st limit window now).1.entries =
        zaddMember (pruneEntries st.entries now window) (toString now) now) := by
  unfold is_allowed
  by_cases h : limit ≤ ((pruneEntries st.entries now window).length : Int)
  · simp only [if_pos h]
    refine ⟨by simp [h], by simp [h], ?_⟩
    intro hw
    rw [if_neg (by omega)]
    exact ⟨rfl, rfl⟩
  · simp only [if_neg h]
    refine ⟨by simp [h], by simp [h], ?_⟩
    intro hw
    rw [if_neg (by omega)]
    exact ⟨rfl, rfl⟩

/-- The first call from an empty window is admitted (for `limit ≥ 2`,
`window > 0`) and leaves exactly the one entry for its own second. -/
lemma first_call_true (L W t : Int) (hL : 2 ≤ L) (hW : 0 < W) :
    is_allowed emptyRL L W t = (⟨[(toString t, t)], some W, 0⟩, true) := by
  unfold is_allowed pruneEntries zaddMember emptyRL
  simp only [List.filter_nil, List.length_nil, Nat.cast_zero, List.any_nil,
    Bool.false_eq_true, if_false, List.nil_append]
  rw [if_neg (by omega), if_neg (by omega)]

/-- A window holding exactly the entry for second `t` is a fixed point of
`is_allowed` at time `t` (for `limit ≥ 2`, `window > 0`): the `zadd` hits
the existing member, so the count stays 1 and the call is admitted. -/
lemma one_entry_fixed (L W t : Int) (d : Nat) (hL : 2 ≤ L) (hW : 0 < W) :
    is_allowed ⟨[(toString t, t)], some W, d⟩ L W t
      = (⟨[(toString t, t)], some W, d⟩, true) := by
  unfold is_allowed pruneEntries zaddMember
  have h1 : (decide (¬ ((0:Int) ≤ t ∧ t ≤ t - W))) = true := by
    simp; omega
  simp only [List.filter_cons, h1, List.filter_nil, if_true]
  simp only [List.length_cons, List.length_nil, Nat.cast_one]
  have hL1 : ¬ (L ≤ ((0 + 1 : Nat) : Int)) := by push_cast; omega
  rw [if_neg (by omega : ¬ W ≤ 0), if_neg hL1]
  simp

/-- Iterating `is_allowed` on the one-entry fixed point returns `true`
every time. -/
lemma run_fixed (L W t : Int) (d : Nat) (hL : 2 ≤ L) (hW : 0 < W) (n : Nat) :
    runCalls ⟨[(toString t, t)], some W, d⟩ L W (List.replicate n t)
      = (⟨[(toString t, t)], some W, d⟩, List.replicate n true) := by
  induction n with
  | zero => rfl
  | succ k ih =>
    rw [List.replicate_succ]
    simp only [runCalls, one_entry_fixed L W t d hL hW, ih, List.replicate_succ]

/-- The upserted member is in the set after `zaddMember`. -/
lemma mem_zaddMember_self (l : List (String × Int)) (m : String) (s : Int) :
    (m, s) ∈ zaddMember l m s := by
  unfold zaddMember
  by_cases h : l.any (fun e => e.1 = m)
  · rw [if_pos h]
    rcases List.any_eq_true.mp h with ⟨x, hx, hm⟩
    have hm' : x.1 = m := by simpa using hm
    exact List.mem_map.mpr ⟨x, hx, by rw [if_pos hm']⟩
  · rw [if_neg h]
    exact List.mem_append_right _ (List.mem_singleton_self _)

/-- Cardinality after `zaddMember`: unchanged when the member was present,
one more when it was not. -/
lemma length_zaddMember (l : List (String × Int)) (m : String) (s : Int) :
    (zaddMember l m s).length =
      l.length + (if l.any (fun e => e.1 = m) then 0 else 1) := by
  unfold zaddMember
  by_cases h : l.any (fun e => e.1 = m)
  · rw [if_pos h, if_pos h, List.length_map, Nat.add_zero]
  · rw [if_neg h, if_neg h, List.length_append, List.length_singleton]

/-- No path of `get_session` changes the stored sessions: the present-key
path only reads (plus a gauge refresh), and the absent-key path raises
`AttributeError` before its `save_session` could write. -/
lemma get_session_sessions_eq (st : SessStore) (uid : String) :
    ((get_session st uid).1).sessions = st.sessions := by
  unfold get_session
  cases h : redisGet st uid with
  | error e => simp
  | ok d =>
    cases d with
    | none => simp [save_session, datetimeUtcnowIso]
    | some data =>
      cases data with
      | good s => simp [jsonLoads, updateActiveSessions]; split <;> rfl
      | malformed => simp [jsonLoads]

/-- Packing a valid scalar value into a `Char` preserves its numeral. -/
lemma toNat_ofNat_valid {n : Nat} (h : n.isValidChar) : (Char.ofNat n).toNat = n := by
  simp [Char.ofNat, dif_pos h, Char.ofNatAux, Char.toNat, UInt32.toNat]

/-- Character upper-case test, restated on code points. -/
lemma isUpper_eq_toNat (c : Char) :
    c.isUpper = (decide (65 ≤ c.toNat) && decide (c.toNat ≤ 90)) := by
  simp [Char.isUpper, Char.toNat, GE.ge, UInt32.le_def, BitVec.le_def, UInt32.toNat]

/-- Lower-casing never yields a basic latin capital letter. -/
lemma toLower_isUpper_false (c : Char) : (Char.toLower c).isUpper = false := by
  unfold Char.toLower
  by_cases h : c.toNat ≥ 65 ∧ c.toNat ≤ 90
  · rw [if_pos h]
    have hv : (c.toNat + 32).isValidChar := Or.inl (by omega)
    rw [isUpper_eq_toNat, toNat_ofNat_valid hv]
    simp only [Bool.and_eq_false_iff, decide_eq_false_iff_not]
    right
    omega
  · rw [if_neg h, isUpper_eq_toNat]
    simp only [Bool.and_eq_false_iff, decide_eq_false_iff_not]
    omega

/-- Lower-casing fixes characters that are not capital letters. -/
lemma toLower_eq_self_of_not_isUpper (c : Char) (h : c.isUpper = false) :
    Char.toLower c = c := by
  rw [isUpper_eq_toNat] at h
  simp only [Bool.and_eq_false_iff, decide_eq_false_iff_not] at h
  unfold Char.toLower
  rw [if_neg (by omega)]

/-- Dropping a prefix of matches does nothing when the head does not match. -/
lemma dropWhile_eq_self_of_head (p : Char → Bool) (l : List Char)
    (h : ∀ c, l.head? = some c → p c = false) : l.dropWhile p = l := by
  cases l with
  | nil => rfl
  | cons a t => simp [List.dropWhile_cons, h a rfl]

/-! Claim theorems. -/

/-- Claim C1, counterexample: with `limit = 10` and `window = 60`, eleven
calls to `is_allowed` for the same user with no elapsed time (all at
`t = 0`) return `true` — including the eleventh, which the claim asserts
returns `false`.  The member written by `zadd` is `str(current_time)`, so
all eleven calls collapse onto one sorted-set entry and the pre-add count
never exceeds 1. -/
theorem claim_C1_counterexample :
    (runCalls emptyRL 10 60 (List.replicate 11 0)).2 = List.replicate 11 true ∧
    (runCalls emptyRL 10 60 (List.replicate 11 0)).2.getLast? ≠ some false := by
  decide

/-- Claim C1 as amended: calls in the same second collapse onto a single
window entry (the member is the stringified timestamp), so for any
`limit ≥ 2` and `window > 0` every one of any number of same-instant calls
from a fresh window returns `true`; the `(limit+1)`-th call is denied when
the calls carry distinct timestamps inside the window: with `limit = 10`,
`window = 60`, calls at `t = 0, 1, ..., 10` return ten times `true` and
then `false`. -/
theorem claim_C1_amended :
    (∀ (L W t : Int) (n : Nat), 2 ≤ L → 0 < W →
      (runCalls emptyRL L W (List.replicate (n + 1) t)).2 = List.replicate (n + 1) true) ∧
    (runCalls emptyRL 10 60 [0,1,2,3,4,5,6,7,8,9,10]).2
      = List.replicate 10 true ++ [false] := by
  constructor
  · intro L W t n hL hW
    rw [List.replicate_succ]
    simp only [runCalls, first_call_true L W t hL hW, run_fixed L W t 0 hL hW n,
      List.replicate_succ]
  · decide

/-- Claim C1 witness: the amended statement applied at `limit = 10`,
`window = 60`, eleven calls at `t = 0`. -/
theorem claim_C1_witness :
    (runCalls emptyRL 10 60 (List.replicate 11 0)).2 = List.replicate 11 true :=
  claim_C1_amended.1 10 60 0 10 (by decide) (by decide)

/-- Claim C2: every `is_allowed` call decides on the count of window
entries measured after the prune and before the new entry is added — the
call returns `false` exactly when that count reaches `limit`, in which case
the per-user denial counter grows by exactly one, and otherwise the counter
is unchanged. -/
theorem claim_C2 :
    ∀ (st : RLState) (limit window now : Int),
      ((is_allowed st limit window now).2 = false ↔
        limit ≤ ((pruneEntries st.entries now window).length : Int)) ∧
      (is_allowed st limit window now).1.denials =
        st.denials +
          (if limit ≤ ((pruneEntries st.entries now window).length : Int) then 1
           else 0) :=
  fun st limit window now =>
    ⟨(is_allowed_decision st limit window now).1,
     (is_allowed_decision st limit window now).2.1⟩

/-- Claim C3, code-bug evaluation: `add_message` raises `AttributeError`
on every call — `datetime.utcnow()` under `import datetime` — before any
session is saved, both on a store that already holds a session for the user
and on a fresh store; the stored sessions are unchanged.  The claimed
append-and-truncate-to-5 behavior is therefore unreachable as written. -/
theorem claim_C3_bug_eval :
    (add_message stOneGood "u1" "m1").2 = Except.error PyErr.attributeError ∧
    (add_message stOneGood "u1" "m1").1.sessions = stOneGood.sessions ∧
    add_message emptySess "u2" "m1" = (emptySess, Except.error PyErr.attributeError) :=
  ⟨rfl, rfl, rfl⟩

/-- Claim C4, code-bug evaluation: `get_session` on a user absent from the
store raises `AttributeError` — `datetime.utcnow()` under
`import datetime` — instead of synthesizing, persisting and returning the
default idle session; the store is returned unchanged. -/
theorem claim_C4_bug_eval :
    get_session emptySess "u1" = (emptySess, Except.error PyErr.attributeError) := rfl

/-- Claim C5, counterexample: reading an existing session does not reset
its TTL and does not update its `last_activity`.  On a store holding a
session for `u1` with TTL 100 and `last_activity = 5`, `get_session`
succeeds yet afterwards the stored entry still has TTL 100 — not
`SESSION_TTL = 3600` — and `last_activity` still 5. -/
theorem claim_C5_counterexample :
    (get_session stOneGood "u1").2 = Except.ok sessIdle5 ∧
    lookupSess (get_session stOneGood "u1").1 "u1"
      = some ⟨StoredVal.good ⟨"idle", [], 0, 5⟩, 100⟩ ∧
    (100 : Int) ≠ SESSION_TTL :=
  ⟨rfl, by decide, by decide⟩

/-- Claim C5 as amended: no operation currently resets the stored TTL or
stamps `last_activity`: `get_session` leaves the stored sessions (values
and TTLs) unchanged on every path, and `save_session` — the only place the
`SESSION_TTL` write lives — raises `AttributeError` before writing and
returns the store unchanged. -/
theorem claim_C5_amended :
    (∀ (st : SessStore) (uid : String),
      ((get_session st uid).1).sessions = st.sessions) ∧
    (∀ (st : SessStore) (uid : String) (session : Session),
      save_session st uid session = (st, Except.error PyErr.attributeError)) :=
  ⟨get_session_sessions_eq, fun _ _ _ => rfl⟩

/-- Claim C6, counterexample: a call does not always add a new entry.  Two
calls at `t = 0` (limit 10, window 60) leave the sorted set with a single
entry: the second call's `zadd` hits the member `"0"` written by the first
and adds nothing. -/
theorem claim_C6_counterexample :
    (is_allowed emptyRL 10 60 0).1.entries.length = 1 ∧
    (is_allowed (is_allowed emptyRL 10 60 0).1 10 60 0).1.entries.length = 1 := by
  decide

/-- Claim C6 as amended: every call (admitted or denied, `window > 0`)
upserts the member for the current second at score `now` — the entry is in
the resulting set, and the cardinality grows by one exactly when no entry
for that member survived the prune — and resets the key's expiry to
`window`; the prune, count, add and expire steps execute as one pipelined
state transition. -/
theorem claim_C6_amended :
    ∀ (st : RLState) (limit window now : Int), 0 < window →
      (is_allowed st limit window now).1.ttl = some window ∧
      (toString now, now) ∈ (is_allowed st limit window now).1.entries ∧
      (is_allowed st limit window now).1.entries.length =
        (pruneEntries st.entries now window).length +
          (if (pruneEntries st.entries now window).any
              (fun e => e.1 = toString now) then 0 else 1) := by
  intro st limit window now hw
  obtain ⟨-, -, hfr⟩ := is_allowed_decision st limit window now
  obtain ⟨httl, hent⟩ := hfr hw
  refine ⟨httl, ?_, ?_⟩
  · rw [hent]; exact mem_zaddMember_self _ _ _
  · rw [hent]; exact length_zaddMember _ _ _

/-- Claim C6 witness: the amended statement applied to the first call on an
empty window at `t = 0` with limit 10, window 60. -/
theorem claim_C6_witness :
    (is_allowed emptyRL 10 60 0).1.ttl = some 60 ∧
    (toString (0:Int), (0:Int)) ∈ (is_allowed emptyRL 10 60 0).1.entries ∧
    (is_allowed emptyRL 10 60 0).1.entries.length =
      (pruneEntries emptyRL.entries 0 60).length +
        (if (pruneEntries emptyRL.entries 0 60).any
            (fun e => e.1 = toString (0:Int)) then 0 else 1) :=
  claim_C6_amended emptyRL 10 60 0 (by decide)

/-- Claim C7, counterexample: an entry with score exactly `now − window`
does not count.  With limit 1 and window 60, a first call at `t = 0` writes
the entry at score 0; at the second call at `t = 60` the prune removes that
entry (`0 = 60 − 60` lies in the pruned range `[0, now − window]`), so the
pre-add count is 0 and the call is admitted — under the claim the entry
would still count and the call would be denied. -/
theorem claim_C7_counterexample :
    (runCalls emptyRL 1 60 [0, 60]).2 = [true, true] ∧
    pruneEntries [("0", (0:Int))] 60 60 = [] := by
  decide

/-- Claim C7 as amended: the prune removes exactly the entries with score
in the closed interval `[0, now − window]`; the entries that count toward
the quota are those with score strictly greater than `now − window` (or
negative, which real timestamps never are), and an entry with score equal
to `now − window` is pruned and does not count. -/
theorem claim_C7_amended :
    ∀ (st : RLState) (limit window now : Int),
      pruneEntries st.entries now window =
        st.entries.filter (fun e => decide (e.2 < 0 ∨ now - window < e.2)) ∧
      ((is_allowed st limit window now).2 = false ↔
        limit ≤ ((st.entries.filter
          (fun e => decide (e.2 < 0 ∨ now - window < e.2))).length : Int)) ∧
      (∀ e ∈ st.entries, 0 ≤ e.2 → e.2 ≤ now - window →
        e ∉ pruneEntries st.entries now window) := by
  intro st limit window now
  have hfilter : pruneEntries st.entries now window =
      st.entries.filter (fun e => decide (e.2 < 0 ∨ now - window < e.2)) := by
    unfold pruneEntries
    apply List.filter_congr
    intro x _
    simp only [decide_eq_decide]
    omega
  refine ⟨hfilter, ?_, ?_⟩
  · rw [← hfilter]
    exact (is_allowed_decision st limit window now).1
  · intro e _ h0 hle hmem
    unfold pruneEntries at hmem
    have := List.of_mem_filter hmem
    simp only [decide_eq_true_eq] at this
    exact this ⟨h0, hle⟩

/-- Claim C7 witness: the amended statement applied to the single entry at
score 0 evaluated at `now = 60`, `window = 60`. -/
theorem claim_C7_witness :
    ("0", (0:Int)) ∉ pruneEntries [("0", (0:Int))] 60 60 :=
  (claim_C7_amended ⟨[("0", 0)], none, 0⟩ 1 60 60).2.2 ("0", 0)
    (by decide) (by decide) (by decide)

/-- Claim C8: `get_message_history` is total (the embedding returns a plain
list — the whole Python body sits under `try/except Exception`): whenever
the underlying `get_session` raises (store down, malformed blob, or the
absent-user `AttributeError`) it returns the empty sequence, and on success
it returns the whole history when `limit` is zero and otherwise the suffix
of the last `min limit length` entries. -/
theorem claim_C8 :
    ∀ (st : SessStore) (uid : String) (limit : Nat),
      (∀ e : PyErr, (get_session st uid).2 = Except.error e →
        (get_message_history st uid limit).2 = []) ∧
      (∀ s : Session, (get_session st uid).2 = Except.ok s →
        (limit = 0 → (get_message_history st uid limit).2 = s.message_history) ∧
        (0 < limit →
          (get_message_history st uid limit).2.length
            = min limit s.message_history.length ∧
          (get_message_history st uid limit).2.IsSuffix s.message_history)) := by
  intro st uid limit
  unfold get_message_history
  cases hg : get_session st uid with
  | mk st1 r =>
    cases r with
    | error e =>
      refine ⟨fun _ _ => rfl, fun s hs => ?_⟩
      simp at hs
    | ok s0 =>
      refine ⟨fun e he => by simp at he, fun s hs => ?_⟩
      have hs0 : s0 = s := by simpa using hs
      subst hs0
      dsimp only
      constructor
      · intro h0
        simp [h0]
      · intro hpos
        rw [if_pos (by omega)]
        constructor
        · simp only [List.length_drop]
          omega
        · exact List.drop_suffix _ _

/-- Claim C8 witness: on the mixed store, the malformed blob for `bad`
yields the empty history and the three-entry history for `u` truncated to
`limit = 2` has length `min 2 3`. -/
theorem claim_C8_witness :
    (get_message_history stMixed "bad" 10).2 = [] ∧
    (get_message_history stMixed "u" 2).2.length = min 2 histThree.length :=
  ⟨(claim_C8 stMixed "bad" 10).1 PyErr.jsonDecodeError rfl,
   (((claim_C8 stMixed "u" 2).2 ⟨"active", histThree, 0, 1⟩ rfl).2 (by decide)).1⟩

/-- Claim C9, counterexample: when internal processing of a delivery
raises (here: an outbound `requests.post` failure), the webhook POST
endpoint answers with HTTP 500 and body status `"error"` — not a
success-shaped acknowledgment. -/
theorem claim_C9_counterexample :
    inbound (Except.error PyErr.requestException) = ⟨500, "error"⟩ ∧
    (inbound (Except.error PyErr.requestException)).status ≠ "ok" ∧
    (inbound (Except.error PyErr.requestException)).statusCode ≠ 200 := by
  refine ⟨rfl, ?_, by decide⟩
  intro h
  simp [inbound] at h

/-- Claim C9 as amended: the webhook POST endpoint returns the
success-shaped acknowledgment (HTTP 200, body status `"ok"`) exactly when
internal processing of the delivery completed without raising; when
processing raises it returns HTTP 500 with body status `"error"`. -/
theorem claim_C9_amended :
    ∀ processing : Except PyErr Unit,
      ((inbound processing).statusCode = 200 ∧ (inbound processing).status = "ok")
        ↔ processing = Except.ok () := by
  intro p
  cases p with
  | ok u => cases u; simp [inbound]
  | error e =>
    simp only [inbound]
    constructor
    · rintro ⟨h, -⟩; simp at h
    · intro h; simp at h

/-- Claim C10, counterexample: the normalized string handed to
`handle_message`'s decision logic is neither length-capped at 500
characters nor whitespace-collapsed: a 501-character text passes through
with length 501, and an internal double space survives (while letters are
lower-cased). -/
theorem claim_C10_counterexample :
    500 < (handleMessageMsg (some longA)).length ∧
    handleMessageMsg (some ['A', ' ', ' ', 'B']) = ['a', ' ', ' ', 'b'] := by
  constructor
  · set_option maxRecDepth 4096 in decide
  · decide

/-- Claim C10 as amended: the string handed to the message-handling core
is the inbound text lower-cased and stripped of leading and trailing
whitespace, and nothing else: it contains no capital letters, and any text
that is already lower-case with non-whitespace ends — whatever its length
and internal whitespace — passes through unchanged. -/
theorem claim_C10_amended :
    (∀ (text : Option (List Char)), ∀ c ∈ handleMessageMsg text, c.isUpper = false) ∧
    (∀ text : List Char,
      (∀ c ∈ text, c.isUpper = false) →
      (∀ c, text.head? = some c → pyWhitespace c = false) →
      (∀ c, text.getLast? = some c → pyWhitespace c = false) →
      handleMessageMsg (some text) = text) := by
  constructor
  · intro text c hc
    unfold handleMessageMsg normalizeText pyLower at hc
    rcases List.mem_map.mp hc with ⟨x, -, hx⟩
    rw [← hx]
    exact toLower_isUpper_false x
  · intro text hlow hhead hlast
    unfold handleMessageMsg normalizeText pyStrip pyLower
    simp only [Option.getD_some]
    rw [dropWhile_eq_self_of_head _ _ hhead]
    rw [dropWhile_eq_self_of_head _ _ (by
      intro c hc
      exact hlast c (by rwa [List.head?_reverse] at hc))]
    rw [List.reverse_reverse]
    exact (List.map_congr_left (fun a ha => toLower_eq_self_of_not_isUpper a (hlow a ha))).trans
      (List.map_id text)

/-- Claim C10 witness: the amended statement applied to a lower-case text
with an internal double space, which passes through unchanged. -/
theorem claim_C10_witness :
    handleMessageMsg (some ['h', 'i', ' ', ' ', 'y', 'o']) = ['h', 'i', ' ', ' ', 'y', 'o'] :=
  claim_C10_amended.2 ['h', 'i', ' ', ' ', 'y', 'o'] (by decide) (by decide) (by decide)
